import Mathlib

/-!
Shallow embedding of the ma_boutique ledger core (balance engine and
ledger operations) and verification of the frozen claims C1..C10.

Sources embedded:
- `src/utils/balance.ts` (final, zero-directed revision): `calculatePosition`,
  `getPreviousBalance`.
- `src/db/db.ts`: `partnerExists`, `canEditTransaction`, the Dexie schema's
  unique `[name+type]` index on partners, and the update/create hooks that
  stamp `createdAt` / `updatedAt`.
- `src/hooks/useTransactions.ts`: `createTransaction`, `updateTransaction`,
  `deleteTransaction`.
- `src/hooks/usePayments.ts`: `createPayment`, `updatePayment`, `deletePayment`.
- `src/hooks/usePartners.ts`: `createPartner`, `updatePartner`, `deletePartner`.

Modelling conventions:
- JS numbers used as monetary amounts are modelled as `Int` (exact
  arithmetic); timestamps (epoch milliseconds, produced by `Date.now()` and
  day pickers) are modelled as `Nat`, so the Dexie range query lower bound
  `[partnerId, 0]` is equivalent to no lower bound.
- Optional JS fields are `Option`; JS truthiness of an optional number
  (`!p.transactionId`, `if (paymentData.transactionId)`,
  `if (excludeId && ...)`) is falsy for both `none` and `some 0`, and is
  embedded exactly that way.
- `toDateString()` equality (`canEditTransaction`) is modelled as equality
  of calendar-day indices `t / 86400000` (a fixed local-time offset of zero).
- Opaque display-only fields (`items`, `imageUrl`, `ocrText`, `note`,
  `phone`) are omitted: no claim mentions them and no embedded operation
  branches on them.
- The Dexie store is a record of three lists plus per-table auto-increment
  counters; each asynchronous operation is embedded as a pure state-passing
  function `Store → Except LedgerError α × Store` whose second component is
  the store after exactly the writes the source performs, in order.
-/

namespace Boutique

inductive PartnerType where
  | CLIENT
  | SUPPLIER
  | BOTH
deriving DecidableEq, Repr

inductive Direction where
  | SALE
  | PURCHASE
deriving DecidableEq, Repr

/-- `Partner` record (src/types/partners.ts), display-only optional strings
omitted. -/
structure Partner where
  id : Nat
  name : String
  type : PartnerType
  createdAt : Nat
  updatedAt : Option Nat
deriving DecidableEq, Repr

/-- `Transaction` record (src/types/transaction.ts), display-only optional
fields omitted. -/
structure Transaction where
  id : Nat
  partnerId : Nat
  date : Nat
  direction : Direction
  total : Int
  paid : Int
  createdAt : Nat
  updatedAt : Option Nat
deriving DecidableEq, Repr

/-- `Payment` record (src/types/payments.ts). `transactionId` is the JS
optional number field: absent is `none`. -/
structure Payment where
  id : Nat
  partnerId : Nat
  transactionId : Option Nat
  date : Nat
  amount : Int
  createdAt : Nat
deriving DecidableEq, Repr

/-- The three Dexie tables plus their `++id` auto-increment counters. -/
structure Store where
  partners : List Partner
  transactions : List Transaction
  payments : List Payment
  nextPartnerId : Nat
  nextTransactionId : Nat
  nextPaymentId : Nat
deriving DecidableEq, Repr

/-- `db.partners.get(id)` (primary-key lookup). -/
def Store.getPartner (s : Store) (id : Nat) : Option Partner :=
  s.partners.find? (fun p => p.id == id)

/-- `db.transactions.get(id)`. -/
def Store.getTransaction (s : Store) (id : Nat) : Option Transaction :=
  s.transactions.find? (fun t => t.id == id)

/-- `db.payments.get(id)`. -/
def Store.getPayment (s : Store) (id : Nat) : Option Payment :=
  s.payments.find? (fun p => p.id == id)

/-- JS truthiness of the optional numeric field `p.transactionId`:
`undefined`/`null` and `0` are falsy, every other number is truthy. -/
def txIdTruthy : Option Nat → Bool
  | none => false
  | some n => n != 0

/-- `calculatePosition` (src/utils/balance.ts):
`unpaid = total - paid`; `SALE → unpaid`, `PURCHASE → -unpaid`. -/
def calculatePosition (tx : Transaction) : Int :=
  let unpaid := tx.total - tx.paid
  match tx.direction with
  | .SALE => unpaid
  | .PURCHASE => -unpaid

/-- `getPreviousBalance` (src/utils/balance.ts, final zero-directed
revision). Transactions of the partner with `0 ≤ date < beforeDate` are
folded through `calculatePosition`; standalone payments are those with a
falsy `transactionId` and `date < beforeDate`; the payment sum is applied
toward zero. -/
def getPreviousBalance (s : Store) (partnerId : Nat) (beforeDate : Nat) : Int :=
  let transactions := s.transactions.filter
    (fun tx => tx.partnerId == partnerId && decide (tx.date < beforeDate))
  let balance := transactions.foldl (fun sum tx => sum + calculatePosition tx) 0
  let standalonePayments := s.payments.filter
    (fun p => p.partnerId == partnerId && !txIdTruthy p.transactionId
      && decide (p.date < beforeDate))
  let totalPayments := standalonePayments.foldl (fun sum p => sum + p.amount) 0
  if balance ≥ 0 then balance - totalPayments else balance + totalPayments

/-- Milliseconds per calendar day. -/
def msPerDay : Nat := 86400000

/-- Calendar-day index of a timestamp (fixed local-time offset of zero). -/
def dayOf (t : Nat) : Nat := t / msPerDay

/-- `canEditTransaction` (src/db/db.ts): edit allowed exactly when the
transaction's date and the current instant fall on the same calendar day
(`toDateString()` equality). -/
def canEditTransaction (now : Nat) (tx : Transaction) : Bool :=
  dayOf tx.date == dayOf now

/-- `partnerExists` (src/db/db.ts): first partner with the same
`[name+type]`; the `excludeId` guard uses JS truthiness
(`if (excludeId && existing.id === excludeId)`). -/
def partnerExists (s : Store) (name : String) (type : PartnerType)
    (excludeId : Option Nat) : Bool :=
  match s.partners.find? (fun p => p.name == name && p.type == type) with
  | none => false
  | some existing =>
    match excludeId with
    | some e => if e != 0 && existing.id == e then false else true
    | none => true

/-- Error kinds thrown by the ledger operations, one constructor per
distinct French error message, plus `constraintError` for a rejection by a
Dexie unique index. -/
inductive LedgerError where
  | invalidTotal        -- 'Le montant total doit etre positif'
  | negativePaid        -- 'Le montant paye ne peut pas etre negatif'
  | paidExceedsTotal    -- 'Le montant paye ne peut pas depasser le total'
  | partnerNotFound     -- 'Partner introuvable'
  | transactionNotFound -- 'Transaction introuvable'
  | partnerMismatch     -- 'Le partner ne correspond pas a la transaction'
  | locked              -- 'Cette transaction ne peut plus etre modifiee/supprimee'
  | hasLinkedPayments   -- 'Supprimez les paiements associes'
  | invalidAmount       -- 'Le montant doit etre positif'
  | paymentNotFound     -- 'Paiement introuvable'
  | nameRequired        -- 'Le nom est requis'
  | duplicatePartner    -- 'Un ... avec ce nom existe deja'
  | hasTransactions     -- partner delete blocked by transactions
  | hasPayments         -- partner delete blocked by payments
  | constraintError     -- Dexie ConstraintError on the unique [name+type] index
deriving DecidableEq, Repr

-- ==================== Transaction operations (useTransactions.ts) ===========

/-- The caller-supplied part of a transaction
(`Omit<Transaction, 'id' | 'createdAt'>`). -/
structure TxData where
  partnerId : Nat
  date : Nat
  direction : Direction
  total : Int
  paid : Int
deriving DecidableEq, Repr

/-- `BalanceSnapshot` returned by `createTransaction` (field names as in the
source: `ancien` = prior balance, `position` = delta, `nouveau` = new). -/
structure BalanceSnapshot where
  partnerId : Nat
  partnerName : String
  ancien : Int
  position : Int
  nouveau : Int
  direction : Direction
deriving DecidableEq, Repr

/-- The transaction record inserted by `createTransaction`: the data plus the
store-assigned id and the `createdAt` stamp from the Dexie creating hook. -/
def insertedTransaction (s : Store) (now : Nat) (d : TxData) : Transaction :=
  { id := s.nextTransactionId, partnerId := d.partnerId, date := d.date,
    direction := d.direction, total := d.total, paid := d.paid,
    createdAt := now, updatedAt := none }

/-- `createTransaction` (src/hooks/useTransactions.ts): validate
`total > 0` and `paid ≥ 0` (the `paid > total` check is commented out in the
source); compute the prior balance and the inline position; look up the
partner (fail if absent); insert the transaction; return the snapshot. -/
def createTransaction (now : Nat) (d : TxData) (s : Store) :
    Except LedgerError BalanceSnapshot × Store :=
  if d.total ≤ 0 then (.error .invalidTotal, s)
  else if d.paid < 0 then (.error .negativePaid, s)
  else
    let ancien := getPreviousBalance s d.partnerId d.date
    let position := match d.direction with
      | .SALE => d.total - d.paid
      | .PURCHASE => -(d.total - d.paid)
    let nouveau := ancien + position
    match s.getPartner d.partnerId with
    | none => (.error .partnerNotFound, s)
    | some partner =>
      (.ok { partnerId := d.partnerId, partnerName := partner.name,
             ancien := ancien, position := position, nouveau := nouveau,
             direction := d.direction },
       { s with transactions := s.transactions ++ [insertedTransaction s now d],
                nextTransactionId := s.nextTransactionId + 1 })

/-- A `Partial<Transaction>` patch over the embedded fields. -/
structure TxPatch where
  partnerId : Option Nat
  date : Option Nat
  direction : Option Direction
  total : Option Int
  paid : Option Int
deriving DecidableEq, Repr

/-- The empty transaction patch. -/
def TxPatch.empty : TxPatch :=
  { partnerId := none, date := none, direction := none, total := none,
    paid := none }

/-- The merged record persisted by `updateTransaction`
(`{...updates, updatedAt: Date.now()}` applied over the stored row). -/
def mergedTransaction (tx : Transaction) (u : TxPatch) (now : Nat) :
    Transaction :=
  { tx with partnerId := u.partnerId.getD tx.partnerId,
            date := u.date.getD tx.date,
            direction := u.direction.getD tx.direction,
            total := u.total.getD tx.total,
            paid := u.paid.getD tx.paid,
            updatedAt := some now }

/-- The store after `db.transactions.update(id, {...updates, updatedAt})`. -/
def transactionWrite (s : Store) (id : Nat) (tx : Transaction) (u : TxPatch)
    (now : Nat) : Store :=
  let txs := s.transactions.map
    (fun t => if t.id = id then mergedTransaction tx u now else t)
  { s with transactions := txs }

/-- `updateTransaction` (src/hooks/useTransactions.ts): not-found, same-day
lock, patch-field validation, merged `paid ≤ total` check, then a single
`db.transactions.update`. -/
def updateTransaction (now : Nat) (id : Nat) (u : TxPatch) (s : Store) :
    Except LedgerError Unit × Store :=
  match s.getTransaction id with
  | none => (.error .transactionNotFound, s)
  | some tx =>
    if !canEditTransaction now tx then (.error .locked, s)
    else if (match u.total with | some t => decide (t ≤ 0) | none => false : Bool)
    then (.error .invalidTotal, s)
    else if (match u.paid with | some p => decide (p < 0) | none => false : Bool)
    then (.error .negativePaid, s)
    else if u.paid.getD tx.paid > u.total.getD tx.total
    then (.error .paidExceedsTotal, s)
    else (.ok (), transactionWrite s id tx u now)

/-- `deleteTransaction` (src/hooks/useTransactions.ts): not-found, same-day
lock, guard on payments whose `transactionId` equals the id (Dexie equality
query on the `transactionId` index), then delete. -/
def deleteTransaction (now : Nat) (id : Nat) (s : Store) :
    Except LedgerError Unit × Store :=
  match s.getTransaction id with
  | none => (.error .transactionNotFound, s)
  | some tx =>
    if !canEditTransaction now tx then (.error .locked, s)
    else
      let paymentCount :=
        (s.payments.filter (fun p => p.transactionId == some id)).length
      if paymentCount > 0 then (.error .hasLinkedPayments, s)
      else (.ok (), { s with transactions :=
        s.transactions.filter (fun t => t.id != id) })

-- ==================== Payment operations (usePayments.ts) ===================

/-- The caller-supplied part of a payment
(`Omit<Payment, 'id' | 'createdAt'>`). -/
structure PaymentData where
  partnerId : Nat
  transactionId : Option Nat
  date : Nat
  amount : Int
deriving DecidableEq, Repr

/-- The payment record inserted by `createPayment`: the data plus the
store-assigned id and the `createdAt` stamp. -/
def insertedPayment (s : Store) (now : Nat) (d : PaymentData) : Payment :=
  { id := s.nextPaymentId, partnerId := d.partnerId,
    transactionId := d.transactionId, date := d.date, amount := d.amount,
    createdAt := now }

/-- `db.payments.add`: append with the store-assigned id, returning the id. -/
def paymentInsert (s : Store) (now : Nat) (d : PaymentData) :
    Except LedgerError Nat × Store :=
  (.ok s.nextPaymentId,
   { s with payments := s.payments ++ [insertedPayment s now d],
            nextPaymentId := s.nextPaymentId + 1 })

/-- `createPayment` (src/hooks/usePayments.ts): validate `amount > 0`;
partner must exist; when `transactionId` is truthy
(`if (paymentData.transactionId)`) the transaction must exist and belong to
the same partner; then a single `db.payments.add`. -/
def createPayment (now : Nat) (d : PaymentData) (s : Store) :
    Except LedgerError Nat × Store :=
  if d.amount ≤ 0 then (.error .invalidAmount, s)
  else
    match s.getPartner d.partnerId with
    | none => (.error .partnerNotFound, s)
    | some _ =>
      if txIdTruthy d.transactionId then
        match s.getTransaction (d.transactionId.getD 0) with
        | none => (.error .transactionNotFound, s)
        | some tx =>
          if tx.partnerId != d.partnerId then (.error .partnerMismatch, s)
          else paymentInsert s now d
      else paymentInsert s now d

/-- A `Partial<Payment>` patch. `transactionId` distinguishes "field absent
from the patch" (`none`) from "field present with value v"
(`some v`, where `v` is itself the optional FK). -/
structure PaymentPatch where
  partnerId : Option Nat
  transactionId : Option (Option Nat)
  date : Option Nat
  amount : Option Int
deriving DecidableEq, Repr

/-- The empty payment patch. -/
def PaymentPatch.empty : PaymentPatch :=
  { partnerId := none, transactionId := none, date := none, amount := none }

/-- The merged record persisted by `updatePayment`
(`db.payments.update(id, updates)`; the payments table has no updating hook,
so nothing stamps `updatedAt`). -/
def mergedPayment (p : Payment) (u : PaymentPatch) : Payment :=
  { p with partnerId := u.partnerId.getD p.partnerId,
           transactionId := u.transactionId.getD p.transactionId,
           date := u.date.getD p.date,
           amount := u.amount.getD p.amount }

/-- The store after `db.payments.update(id, updates)` (merge write, no
`updatedAt` stamp: the payments table has no updating hook). -/
def paymentWrite (s : Store) (id : Nat) (u : PaymentPatch) : Store :=
  let ps := s.payments.map
    (fun q => if q.id = id then mergedPayment q u else q)
  { s with payments := ps }

/-- `updatePayment` (src/hooks/usePayments.ts): not-found, `amount > 0` when
the patch carries an amount, then a single merge write — no referential or
edit-window checks. -/
def updatePayment (id : Nat) (u : PaymentPatch) (s : Store) :
    Except LedgerError Unit × Store :=
  match s.getPayment id with
  | none => (.error .paymentNotFound, s)
  | some _ =>
    if (match u.amount with | some a => decide (a ≤ 0) | none => false : Bool)
    then (.error .invalidAmount, s)
    else (.ok (), paymentWrite s id u)

/-- `deletePayment` (src/hooks/usePayments.ts): not-found, then an
unconditional delete. -/
def deletePayment (id : Nat) (s : Store) : Except LedgerError Unit × Store :=
  match s.getPayment id with
  | none => (.error .paymentNotFound, s)
  | some _ =>
    (.ok (), { s with payments := s.payments.filter (fun p => p.id != id) })

-- ==================== Partner operations (usePartners.ts) ===================

/-- The caller-supplied part of a partner
(`Omit<Partner, 'id' | 'createdAt'>`). -/
structure PartnerData where
  name : String
  type : PartnerType
deriving DecidableEq, Repr

/-- `db.partners.add` under the schema `'++id, &[name+type], ...'`
(src/db/db.ts): the unique compound index rejects a row whose `[name+type]`
pair is already present; otherwise the row is appended with the
auto-increment id. -/
def partnersAdd (s : Store) (p : Partner) : Except LedgerError Store :=
  if s.partners.any (fun q => q.name == p.name && q.type == p.type)
  then .error .constraintError
  else .ok { s with partners := s.partners ++ [p],
                    nextPartnerId := s.nextPartnerId + 1 }

/-- `db.partners.update` under the same unique `[name+type]` index: the
write is rejected when another row would collide with the merged record. -/
def partnersUpdate (s : Store) (id : Nat) (merged : Partner) :
    Except LedgerError Store :=
  if s.partners.any
    (fun q => q.id != id && q.name == merged.name && q.type == merged.type)
  then .error .constraintError
  else
    let ps := s.partners.map (fun q => if q.id = id then merged else q)
    .ok { s with partners := ps }

/-- `createPartner` (src/hooks/usePartners.ts): non-empty trimmed name,
`partnerExists` uniqueness check, then `db.partners.add` (whose own unique
index can also reject). -/
def createPartner (now : Nat) (d : PartnerData) (s : Store) :
    Except LedgerError Nat × Store :=
  if d.name.trim == "" then (.error .nameRequired, s)
  else if partnerExists s d.name d.type none then (.error .duplicatePartner, s)
  else
    match partnersAdd s { id := s.nextPartnerId, name := d.name,
                          type := d.type, createdAt := now,
                          updatedAt := none } with
    | .error e => (.error e, s)
    | .ok s' => (.ok s.nextPartnerId, s')

/-- A `Partial<Partner>` patch over the embedded fields. -/
structure PartnerPatch where
  name : Option String
  type : Option PartnerType
deriving DecidableEq, Repr

/-- The merged record persisted by `updatePartner`
(`{...updates, updatedAt: Date.now()}` over the stored row; the updating
hook stamps the same `updatedAt`). -/
def mergedPartner (p : Partner) (u : PartnerPatch) (now : Nat) : Partner :=
  { p with name := u.name.getD p.name,
           type := u.type.getD p.type,
           updatedAt := some now }

/-- `updatePartner` (src/hooks/usePartners.ts): not-found; the uniqueness
re-check runs only under `if (updates.name && updates.name !== partner.name)`
— a truthy patched name that differs from the stored one — with
`type = updates.type ?? partner.type` and the partner itself excluded; then
a single `db.partners.update` (still guarded by the unique index). -/
def updatePartner (now : Nat) (id : Nat) (u : PartnerPatch) (s : Store) :
    Except LedgerError Unit × Store :=
  match s.getPartner id with
  | none => (.error .partnerNotFound, s)
  | some partner =>
    let nameChanges : Bool := match u.name with
      | some n => n != "" && n != partner.name
      | none => false
    if nameChanges &&
        partnerExists s (u.name.getD "") (u.type.getD partner.type) (some id)
    then (.error .duplicatePartner, s)
    else
      match partnersUpdate s id (mergedPartner partner u now) with
      | .error e => (.error e, s)
      | .ok s' => (.ok (), s')

/-- `deletePartner` (src/hooks/usePartners.ts): blocked while any
transaction or payment references the partner; otherwise delete (Dexie
`delete` on a missing key is a no-op success). -/
def deletePartner (id : Nat) (s : Store) : Except LedgerError Unit × Store :=
  let txCount := (s.transactions.filter (fun t => t.partnerId == id)).length
  if txCount > 0 then (.error .hasTransactions, s)
  else
    let paymentCount := (s.payments.filter (fun p => p.partnerId == id)).length
    if paymentCount > 0 then (.error .hasPayments, s)
    else (.ok (), { s with partners := s.partners.filter (fun p => p.id != id) })

-- ==================== Ledger operations as one step relation ================

/-- One Ledger Operation: any create/update/delete of a partner,
transaction or payment, with its arguments. -/
inductive LedgerOp where
  | newPartner (now : Nat) (d : PartnerData)
  | editPartner (now id : Nat) (u : PartnerPatch)
  | dropPartner (id : Nat)
  | newTransaction (now : Nat) (d : TxData)
  | editTransaction (now id : Nat) (u : TxPatch)
  | dropTransaction (now id : Nat)
  | newPayment (now : Nat) (d : PaymentData)
  | editPayment (id : Nat) (u : PaymentPatch)
  | dropPayment (id : Nat)
deriving DecidableEq, Repr

/-- Dispatcher running a Ledger Operation on a store, discarding the
operation-specific return value. -/
def runLedgerOp : LedgerOp → Store → Except LedgerError Unit × Store
  | .newPartner now d, s =>
    let r := createPartner now d s
    (r.1.map (fun _ => ()), r.2)
  | .editPartner now id u, s => updatePartner now id u s
  | .dropPartner id, s => deletePartner id s
  | .newTransaction now d, s =>
    let r := createTransaction now d s
    (r.1.map (fun _ => ()), r.2)
  | .editTransaction now id u, s => updateTransaction now id u s
  | .dropTransaction now id, s => deleteTransaction now id s
  | .newPayment now d, s =>
    let r := createPayment now d s
    (r.1.map (fun _ => ()), r.2)
  | .editPayment id u, s => updatePayment id u s
  | .dropPayment id, s => deletePayment id s

-- ==================== Spec-side balance definitions ========================

/-- The balance formula in the words of claim C1: sum of positions over the
partner's stored transactions with `date < t`, minus-toward-zero the sum of
amounts of the partner's stored payments with `date < t` and **no**
`transactionId` (absent field, `none`). -/
def balanceAsOfClaimC1 (s : Store) (pid t : Nat) : Int :=
  let runningBalance := ((s.transactions.filter
    (fun tx => tx.partnerId == pid && decide (tx.date < t))).map
      calculatePosition).sum
  let totalPayments := ((s.payments.filter
    (fun p => p.partnerId == pid && p.transactionId == none
      && decide (p.date < t))).map Payment.amount).sum
  if runningBalance ≥ 0 then runningBalance - totalPayments
  else runningBalance + totalPayments

/-- The amended balance formula: as in claim C1, but a payment counts as
standalone exactly when its `transactionId` is falsy — absent **or zero** —
matching the source's `!p.transactionId` filter. -/
def balanceAsOfAmendedC1 (s : Store) (pid t : Nat) : Int :=
  let runningBalance := ((s.transactions.filter
    (fun tx => tx.partnerId == pid && decide (tx.date < t))).map
      calculatePosition).sum
  let totalPayments := ((s.payments.filter
    (fun p => p.partnerId == pid && !txIdTruthy p.transactionId
      && decide (p.date < t))).map Payment.amount).sum
  if runningBalance ≥ 0 then runningBalance - totalPayments
  else runningBalance + totalPayments

-- ==================== Shared helper lemmas ==================================

/-- Folding `(· + f ·)` over a list from `a` is `a` plus the sum of the
mapped list. -/
theorem foldl_add_eq_sum {α : Type} (f : α → Int) (l : List α) (a : Int) :
    l.foldl (fun sum x => sum + f x) a = a + (l.map f).sum := by
  induction l generalizing a with
  | nil => simp
  | cons x xs ih => simp [ih]; ring

/-- Two filters agree on a list when the predicates agree on its members. -/
theorem filter_congr_mem {α : Type} {p q : α → Bool} {l : List α}
    (h : ∀ x ∈ l, p x = q x) : l.filter p = l.filter q := by
  induction l with
  | nil => rfl
  | cons x xs ih =>
    simp only [List.filter_cons, h x (by simp)]
    rw [ih (fun y hy => h y (by simp [hy]))]

-- ==================== Example records for witnesses =========================

/-- A store with no records. -/
def emptyStore : Store :=
  { partners := [], transactions := [], payments := [],
    nextPartnerId := 1, nextTransactionId := 1, nextPaymentId := 1 }

/-- A sample client partner with id 1. -/
def clientA : Partner :=
  { id := 1, name := "Boutique A", type := .CLIENT, createdAt := 0,
    updatedAt := none }

/-- A store containing just `clientA`. -/
def storeA : Store := { emptyStore with partners := [clientA], nextPartnerId := 2 }

-- ==================== C1 ====================================================

/-- Store refuting claim C1: a single stored payment of amount 5 whose
`transactionId` is present but zero. -/
def storeC1 : Store :=
  { emptyStore with
    payments := [{ id := 1, partnerId := 1, transactionId := some 0,
                   date := 0, amount := 5, createdAt := 0 }],
    nextPaymentId := 2 }

/-- Claim C1 is false as stated: the stored payment of partner 1 carries a
`transactionId` (namely 0), so by the claim it must not affect the result
and `balanceAsOf(1, 1)` would be `R - P = 0 - 0 = 0`; the code's
`!p.transactionId` filter treats the payment as standalone and returns
`-5`. -/
theorem c1_counterexample :
    getPreviousBalance storeC1 1 1 = -5 ∧ balanceAsOfClaimC1 storeC1 1 1 = 0 := by
  constructor <;> rfl

/-- Claim C1 (amended): `balanceAsOf(partnerId, t)` equals `R - P` when
`R ≥ 0` and `R + P` when `R < 0`, where `R` sums `position(tx)` over the
partner's stored transactions with `date < t` and `P` sums the amounts of
the partner's stored payments with `date < t` whose `transactionId` is
absent **or zero** (the source's falsy test); payments with a nonzero
`transactionId` never affect the result. -/
theorem c1_balance (s : Store) (pid t : Nat) :
    getPreviousBalance s pid t = balanceAsOfAmendedC1 s pid t := by
  unfold getPreviousBalance balanceAsOfAmendedC1
  simp only [foldl_add_eq_sum, zero_add]

-- ==================== C3 ====================================================

/-- Claim C3: for a transaction with `0 ≤ paid ≤ total`, the position is
`total - paid ≥ 0` for a SALE and `-(total - paid) ≤ 0` for a PURCHASE.
(`calculatePosition` is a pure total function: no side effects and no error
cases, as its type shows.) -/
theorem c3_position_sign (tx : Transaction) (h0 : 0 ≤ tx.paid)
    (h1 : tx.paid ≤ tx.total) :
    (tx.direction = .SALE →
      calculatePosition tx = tx.total - tx.paid ∧ 0 ≤ calculatePosition tx) ∧
    (tx.direction = .PURCHASE →
      calculatePosition tx = -(tx.total - tx.paid) ∧ calculatePosition tx ≤ 0) := by
  unfold calculatePosition
  rcases tx with ⟨id, pid, date, dir, total, paid, c, u⟩
  cases dir <;> simp_all

/-- A concrete SALE transaction for the C3 witness. -/
def txC3 : Transaction :=
  { id := 1, partnerId := 1, date := 0, direction := .SALE, total := 10,
    paid := 3, createdAt := 0, updatedAt := none }

/-- Witness for C3 at the SALE transaction `total = 10`, `paid = 3`. -/
theorem c3_position_sign_witness :
    (txC3.direction = .SALE →
      calculatePosition txC3 = txC3.total - txC3.paid ∧
      0 ≤ calculatePosition txC3) ∧
    (txC3.direction = .PURCHASE →
      calculatePosition txC3 = -(txC3.total - txC3.paid) ∧
      calculatePosition txC3 ≤ 0) :=
  c3_position_sign txC3 (by decide) (by decide)

-- ==================== C2 ====================================================

/-- Claim C2: `createTransaction` rejects `total ≤ 0` and `paid < 0` (and
nothing else about amounts — in particular `paid > total` is not rejected,
as the success branch below only assumes `total > 0` and `paid ≥ 0`); fails
with PartnerNotFound when the partner id does not resolve; and otherwise
inserts exactly one transaction record, no payment record, and returns a
snapshot with `priorBalance = balanceAsOf(partnerId, data.date)`,
`positionDelta = position(data)` and `newBalance = priorBalance +
positionDelta`. -/
theorem c2_createTransaction (now : Nat) (d : TxData) (s : Store) :
    (d.total ≤ 0 → createTransaction now d s = (.error .invalidTotal, s)) ∧
    (0 < d.total → d.paid < 0 →
      createTransaction now d s = (.error .negativePaid, s)) ∧
    (0 < d.total → 0 ≤ d.paid → s.getPartner d.partnerId = none →
      createTransaction now d s = (.error .partnerNotFound, s)) ∧
    (∀ p, 0 < d.total → 0 ≤ d.paid → s.getPartner d.partnerId = some p →
      createTransaction now d s =
        (.ok { partnerId := d.partnerId, partnerName := p.name,
               ancien := getPreviousBalance s d.partnerId d.date,
               position := calculatePosition (insertedTransaction s now d),
               nouveau := getPreviousBalance s d.partnerId d.date +
                 calculatePosition (insertedTransaction s now d),
               direction := d.direction },
         { s with
             transactions := s.transactions ++ [insertedTransaction s now d],
             nextTransactionId := s.nextTransactionId + 1 })) := by
  refine ⟨fun h => ?_, fun h1 h2 => ?_, fun h1 h2 h3 => ?_, fun p h1 h2 h3 => ?_⟩
  · simp [createTransaction, h]
  · simp [createTransaction, h2, not_le.mpr h1]
  · simp [createTransaction, h3, not_le.mpr h1, not_lt.mpr h2]
  · simp only [createTransaction, if_neg (not_le.mpr h1), if_neg (not_lt.mpr h2), h3]
    have hpos : (match d.direction with
        | .SALE => d.total - d.paid
        | .PURCHASE => -(d.total - d.paid)) =
        calculatePosition (insertedTransaction s now d) := by
      unfold calculatePosition insertedTransaction
      cases d.direction <;> rfl
    rw [hpos]

/-- Transaction data with `paid > total` for the C2 witness. -/
def txDataC2 : TxData :=
  { partnerId := 1, date := 100, direction := .SALE, total := 5, paid := 7 }

/-- Witness for C2: on `storeA` the over-paid SALE (`total = 5`,
`paid = 7`) is accepted and the snapshot and single-insert store are
returned. -/
theorem c2_createTransaction_witness :
    createTransaction 9 txDataC2 storeA =
      (.ok { partnerId := txDataC2.partnerId, partnerName := clientA.name,
             ancien := getPreviousBalance storeA txDataC2.partnerId txDataC2.date,
             position := calculatePosition (insertedTransaction storeA 9 txDataC2),
             nouveau := getPreviousBalance storeA txDataC2.partnerId txDataC2.date +
               calculatePosition (insertedTransaction storeA 9 txDataC2),
             direction := txDataC2.direction },
       { storeA with
           transactions := storeA.transactions ++ [insertedTransaction storeA 9 txDataC2],
           nextTransactionId := storeA.nextTransactionId + 1 }) :=
  (c2_createTransaction 9 txDataC2 storeA).2.2.2 clientA (by decide) (by decide) rfl

-- ==================== C4 ====================================================

/-- The outstanding balance produced by the partner's stored transactions
alone: the sum of their positions. -/
def transactionsBalance (s : Store) (pid : Nat) : Int :=
  ((s.transactions.filter (fun tx => tx.partnerId == pid)).map
    calculatePosition).sum

/-- The sum of the amounts of the partner's stored payments. -/
def paymentsTotal (s : Store) (pid : Nat) : Int :=
  ((s.payments.filter (fun p => p.partnerId == pid)).map Payment.amount).sum

/-- Claim C4 (property P2): when every stored transaction of the partner
predates `t` and the partner's stored payments are all standalone
(`transactionId` absent), predate `t`, and their amounts sum exactly to the
magnitude of the outstanding balance produced by the transactions, the
balance as of `t` is 0. (For a nonnegative outstanding balance the
magnitude is the balance itself, which is the claim's literal reading; for
a negative one it is the amount the shop owes, per spec scenario 4.) -/
theorem c4_zero_sum (s : Store) (pid t : Nat)
    (htx : ∀ tx ∈ s.transactions, tx.partnerId = pid → tx.date < t)
    (hp : ∀ p ∈ s.payments, p.partnerId = pid →
      p.transactionId = none ∧ p.date < t)
    (hsum : paymentsTotal s pid = |transactionsBalance s pid|) :
    getPreviousBalance s pid t = 0 := by
  have hT : s.transactions.filter
        (fun tx => tx.partnerId == pid && decide (tx.date < t)) =
      s.transactions.filter (fun tx => tx.partnerId == pid) := by
    apply filter_congr_mem
    intro x hx
    by_cases hpid : x.partnerId = pid
    · simp [beq_iff_eq, hpid, htx x hx hpid]
    · have hb : (x.partnerId == pid) = false := beq_eq_false_iff_ne.mpr hpid
      simp [hb]
  have hP : s.payments.filter
        (fun p => p.partnerId == pid && !txIdTruthy p.transactionId
          && decide (p.date < t)) =
      s.payments.filter (fun p => p.partnerId == pid) := by
    apply filter_congr_mem
    intro x hx
    by_cases hpid : x.partnerId = pid
    · obtain ⟨hnone, hdate⟩ := hp x hx hpid
      simp [beq_iff_eq, hpid, hnone, hdate, txIdTruthy]
    · have hb : (x.partnerId == pid) = false := beq_eq_false_iff_ne.mpr hpid
      simp [hb]
  have hform : getPreviousBalance s pid t =
      (if transactionsBalance s pid ≥ 0
       then transactionsBalance s pid - paymentsTotal s pid
       else transactionsBalance s pid + paymentsTotal s pid) := by
    unfold getPreviousBalance transactionsBalance paymentsTotal
    simp only [hT, hP, foldl_add_eq_sum, zero_add]
  rw [hform, hsum]
  rcases le_or_lt 0 (transactionsBalance s pid) with h | h
  · rw [if_pos h, abs_of_nonneg h]; ring
  · rw [if_neg (not_le.mpr h), abs_of_neg h]; ring

/-- SALE transaction (total 10, paid 3) for the C4 witness. -/
def txC4 : Transaction :=
  { id := 1, partnerId := 1, date := 100, direction := .SALE, total := 10,
    paid := 3, createdAt := 0, updatedAt := none }

/-- Standalone payment of 7 for the C4 witness. -/
def payC4 : Payment :=
  { id := 1, partnerId := 1, transactionId := none, date := 200, amount := 7,
    createdAt := 0 }

/-- Store for the C4 witness: one SALE (total 10, paid 3) and one
standalone payment of 7. -/
def storeC4 : Store :=
  { emptyStore with
    transactions := [txC4], payments := [payC4],
    nextTransactionId := 2, nextPaymentId := 2 }

/-- Witness for C4: the payment of 7 settles the outstanding 7 exactly. -/
theorem c4_zero_sum_witness : getPreviousBalance storeC4 1 300 = 0 :=
  c4_zero_sum storeC4 1 300 (by decide) (by decide) (by decide)

-- ==================== C5 ====================================================

/-- Claim C5 (property P4): a stored transaction dated on an earlier
calendar day than the current one is locked — every `updateTransaction`
patch and `deleteTransaction` fail with the Locked error, whatever the
transaction's other fields — while a transaction dated on the current
calendar day passes the editability check. -/
theorem c5_lock (now : Nat) (s : Store) (id : Nat) (tx : Transaction)
    (hfind : s.getTransaction id = some tx) :
    (dayOf tx.date < dayOf now →
      (∀ u, updateTransaction now id u s = (.error .locked, s)) ∧
      deleteTransaction now id s = (.error .locked, s)) ∧
    (dayOf tx.date = dayOf now → canEditTransaction now tx = true) := by
  constructor
  · intro hday
    have hce : canEditTransaction now tx = false := by
      simp only [canEditTransaction, beq_eq_false_iff_ne]
      omega
    constructor
    · intro u
      simp [updateTransaction, hfind, hce]
    · simp [deleteTransaction, hfind, hce]
  · intro hday
    simp [canEditTransaction, hday]

/-- A transaction dated during calendar day 0, for the C5 witness. -/
def txC5 : Transaction :=
  { id := 1, partnerId := 1, date := 1000, direction := .SALE, total := 10,
    paid := 0, createdAt := 0, updatedAt := none }

/-- Store for the C5 witness. -/
def storeC5 : Store :=
  { storeA with transactions := [txC5], nextTransactionId := 2 }

/-- Witness for C5: on the next calendar day (`now = 86400005`) the
update and the delete are both Locked; during day 0 (`now = 2000`) the
transaction is editable. -/
theorem c5_lock_witness :
    updateTransaction 86400005 1 TxPatch.empty storeC5 =
      (.error .locked, storeC5) ∧
    deleteTransaction 86400005 1 storeC5 = (.error .locked, storeC5) ∧
    canEditTransaction 2000 txC5 = true :=
  ⟨((c5_lock 86400005 storeC5 1 txC5 rfl).1 (by decide)).1 TxPatch.empty,
   ((c5_lock 86400005 storeC5 1 txC5 rfl).1 (by decide)).2,
   (c5_lock 2000 storeC5 1 txC5 rfl).2 (by decide)⟩

-- ==================== C6 ====================================================

/-- Claim C6: `updateTransaction` fails NotFound for an unresolved id;
Locked outside the same-day window; rejects a patched `total ≤ 0` or a
patched `paid < 0`; fails whenever the merged `paid` exceeds the merged
`total` (each unpatched field taken from the stored record); and otherwise
persists the merged fields together with the `updatedAt` stamp. -/
theorem c6_updateTransaction (now id : Nat) (u : TxPatch) (s : Store) :
    (s.getTransaction id = none →
      updateTransaction now id u s = (.error .transactionNotFound, s)) ∧
    (∀ tx, s.getTransaction id = some tx → canEditTransaction now tx = false →
      updateTransaction now id u s = (.error .locked, s)) ∧
    (∀ tx v, s.getTransaction id = some tx → canEditTransaction now tx = true →
      u.total = some v → v ≤ 0 →
      updateTransaction now id u s = (.error .invalidTotal, s)) ∧
    (∀ tx w, s.getTransaction id = some tx → canEditTransaction now tx = true →
      (∀ v, u.total = some v → 0 < v) → u.paid = some w → w < 0 →
      updateTransaction now id u s = (.error .negativePaid, s)) ∧
    (∀ tx, s.getTransaction id = some tx → canEditTransaction now tx = true →
      (∀ v, u.total = some v → 0 < v) → (∀ w, u.paid = some w → 0 ≤ w) →
      u.total.getD tx.total < u.paid.getD tx.paid →
      updateTransaction now id u s = (.error .paidExceedsTotal, s)) ∧
    (∀ tx, s.getTransaction id = some tx → canEditTransaction now tx = true →
      (∀ v, u.total = some v → 0 < v) → (∀ w, u.paid = some w → 0 ≤ w) →
      u.paid.getD tx.paid ≤ u.total.getD tx.total →
      updateTransaction now id u s = (.ok (), transactionWrite s id tx u now)) := by
  have htot : ∀ h : (∀ v, u.total = some v → 0 < v),
      (match u.total with | some t => decide (t ≤ 0) | none => false) = false := by
    intro h
    cases hu : u.total with
    | none => rfl
    | some v => simpa using not_le.mpr (h v hu)
  have hpd : ∀ h : (∀ w, u.paid = some w → 0 ≤ w),
      (match u.paid with | some p => decide (p < 0) | none => false) = false := by
    intro h
    cases hu : u.paid with
    | none => rfl
    | some w => simpa using not_lt.mpr (h w hu)
  refine ⟨fun h => ?_, fun tx h1 h2 => ?_, fun tx v h1 h2 h3 h4 => ?_,
    fun tx w h1 h2 h3 h4 h5 => ?_, fun tx h1 h2 h3 h4 h5 => ?_,
    fun tx h1 h2 h3 h4 h5 => ?_⟩
  · simp [updateTransaction, h]
  · simp [updateTransaction, h1, h2]
  · simp [updateTransaction, h1, h2, h3, h4]
  · simp [updateTransaction, h1, h2, htot h3, h4, h5]
  · simp [updateTransaction, h1, h2, htot h3, hpd h4, h5]
  · simp [updateTransaction, h1, h2, htot h3, hpd h4, not_lt.mpr h5]

/-- A patch raising `paid` to 9 for the C6 witness. -/
def patchC6 : TxPatch := { TxPatch.empty with paid := some 9 }

/-- Witness for C6: during day 0 the patch `paid := 9` on the stored
transaction (total 10) is accepted and the merged row with `updatedAt` is
persisted. -/
theorem c6_updateTransaction_witness :
    updateTransaction 2000 1 patchC6 storeC5 =
      (.ok (), transactionWrite storeC5 1 txC5 patchC6 2000) :=
  (c6_updateTransaction 2000 1 patchC6 storeC5).2.2.2.2.2 txC5 rfl (by decide)
    (by intro v hv; cases hv) (by intro w hw; cases hw; decide)
    (by decide)

-- ==================== C7 ====================================================

/-- Payment data whose `transactionId` is present but zero, refuting C7. -/
def paymentDataC7 : PaymentData :=
  { partnerId := 1, transactionId := some 0, date := 0, amount := 5 }

/-- Claim C7 is false as stated: this payment's `transactionId` is present
(`some 0`) and no transaction with id 0 exists in `storeA`, so by the claim
`createPayment` must fail with TransactionNotFound; the source's
`if (paymentData.transactionId)` truthiness test skips both checks for the
falsy value 0 and the payment is persisted with id 1. -/
theorem c7_counterexample :
    paymentDataC7.transactionId = some 0 ∧
    storeA.getTransaction 0 = none ∧
    (createPayment 3 paymentDataC7 storeA).1.toOption = some 1 ∧
    ((createPayment 3 paymentDataC7 storeA).2.payments.map Payment.id) = [1] := by
  refine ⟨rfl, rfl, rfl, rfl⟩

/-- Claim C7 (amended): `createPayment` fails when `amount ≤ 0`; fails with
PartnerNotFound when the partner does not resolve; when `transactionId` is
present **and nonzero** it fails with TransactionNotFound if that
transaction does not exist and with PartnerMismatch if its `partnerId`
differs; otherwise — including when `transactionId` is absent **or zero** —
it persists the payment with the store-assigned id and creation
timestamp. -/
theorem c7_createPayment (now : Nat) (d : PaymentData) (s : Store) :
    (d.amount ≤ 0 → createPayment now d s = (.error .invalidAmount, s)) ∧
    (0 < d.amount → s.getPartner d.partnerId = none →
      createPayment now d s = (.error .partnerNotFound, s)) ∧
    (∀ p, 0 < d.amount → s.getPartner d.partnerId = some p →
      txIdTruthy d.transactionId = true →
      s.getTransaction (d.transactionId.getD 0) = none →
      createPayment now d s = (.error .transactionNotFound, s)) ∧
    (∀ p tx, 0 < d.amount → s.getPartner d.partnerId = some p →
      txIdTruthy d.transactionId = true →
      s.getTransaction (d.transactionId.getD 0) = some tx →
      tx.partnerId ≠ d.partnerId →
      createPayment now d s = (.error .partnerMismatch, s)) ∧
    (∀ p, 0 < d.amount → s.getPartner d.partnerId = some p →
      txIdTruthy d.transactionId = false →
      createPayment now d s = paymentInsert s now d) ∧
    (∀ p tx, 0 < d.amount → s.getPartner d.partnerId = some p →
      txIdTruthy d.transactionId = true →
      s.getTransaction (d.transactionId.getD 0) = some tx →
      tx.partnerId = d.partnerId →
      createPayment now d s = paymentInsert s now d) := by
  refine ⟨fun h => ?_, fun h1 h2 => ?_, fun p h1 h2 h3 h4 => ?_,
    fun p tx h1 h2 h3 h4 h5 => ?_, fun p h1 h2 h3 => ?_,
    fun p tx h1 h2 h3 h4 h5 => ?_⟩
  · simp [createPayment, h]
  · simp [createPayment, h2, not_le.mpr h1]
  · simp [createPayment, h2, h3, h4, not_le.mpr h1]
  · simp [createPayment, h2, h3, h4, h5, not_le.mpr h1]
  · simp [createPayment, h2, h3, not_le.mpr h1]
  · simp [createPayment, h2, h3, h4, h5, not_le.mpr h1]

/-- A standalone payment of 4 on `storeA`, for the C7 witness. -/
def paymentDataC7W : PaymentData :=
  { partnerId := 1, transactionId := none, date := 50, amount := 4 }

/-- Witness for C7 (amended): the standalone payment is persisted with the
store-assigned id. -/
theorem c7_createPayment_witness :
    createPayment 60 paymentDataC7W storeA = paymentInsert storeA 60 paymentDataC7W :=
  (c7_createPayment 60 paymentDataC7W storeA).2.2.2.2.1 clientA (by decide) rfl rfl

-- ==================== C8 ====================================================

/-- The (name, type) pair is unique across all partners. -/
def distinctNameType (s : Store) : Prop :=
  s.partners.Pairwise (fun a b => ¬(a.name = b.name ∧ a.type = b.type))

/-- Partner ids are unique (Dexie primary keys). -/
def distinctPartnerIds (s : Store) : Prop :=
  s.partners.Pairwise (fun a b => a.id ≠ b.id)

/-- Partner "Acme" of type CLIENT with id 1. -/
def acmeClient : Partner :=
  { id := 1, name := "Acme", type := .CLIENT, createdAt := 0, updatedAt := none }

/-- Partner "Acme" of type SUPPLIER with id 2. -/
def acmeSupplier : Partner :=
  { id := 2, name := "Acme", type := .SUPPLIER, createdAt := 0, updatedAt := none }

/-- Store refuting claim C8: a CLIENT "Acme" and a SUPPLIER "Acme". -/
def storeC8 : Store :=
  { emptyStore with partners := [acmeClient, acmeSupplier], nextPartnerId := 3 }

/-- A type-only patch turning the SUPPLIER "Acme" into a CLIENT. -/
def patchC8 : PartnerPatch := { name := none, type := some .CLIENT }

/-- Claim C8 is false as stated: the patch changes partner 2's type to
CLIENT and another partner with the resulting pair ("Acme", CLIENT) exists
(so `partnerExists` excluding partner 2 is true), yet `updatePartner` does
not fail with DuplicatePartner — the `if (updates.name && ...)` guard skips
the application-level check for a patch without a name, and the write is
instead rejected by the store's unique `[name+type]` index. -/
theorem c8_counterexample :
    (updatePartner 9 2 patchC8 storeC8).1 = .error .constraintError ∧
    partnerExists storeC8 "Acme" .CLIENT (some 2) = true ∧
    (updatePartner 9 2 patchC8 storeC8).1 ≠ .error .duplicatePartner := by
  refine ⟨rfl, rfl, fun h => ?_⟩
  exact LedgerError.noConfusion (Except.error.inj h)

/-- A successful `partnersUpdate` preserves the (name, type) uniqueness
invariant: the unique-index guard keeps the merged row from colliding with
any other row. -/
theorem partnersUpdate_preserves (s : Store) (id : Nat) (merged : Partner)
    (hids : distinctPartnerIds s) (hnt : distinctNameType s) :
    ∀ s', partnersUpdate s id merged = .ok s' → distinctNameType s' := by
  intro s' h
  unfold partnersUpdate at h
  by_cases hc : (s.partners.any
      (fun q => q.id != id && q.name == merged.name && q.type == merged.type)) = true
  · rw [if_pos hc] at h
    cases h
  · rw [if_neg hc] at h
    injection h with h'
    subst h'
    have hguard : ∀ q ∈ s.partners, q.id ≠ id →
        ¬(q.name = merged.name ∧ q.type = merged.type) := by
      intro q hq hqid hpair
      apply hc
      rw [List.any_eq_true]
      exact ⟨q, hq, by simp [hqid, hpair.1, hpair.2]⟩
    show (s.partners.map _).Pairwise _
    rw [List.pairwise_map]
    refine (hids.and hnt).imp_of_mem ?_
    intro a b ha hb hr
    obtain ⟨hid, hpair⟩ := hr
    by_cases haid : a.id = id
    · have hbid : b.id ≠ id := fun hh => hid (haid.trans hh.symm)
      simp only [if_pos haid, if_neg hbid]
      exact fun hh => hguard b hb hbid ⟨hh.1.symm, hh.2.symm⟩
    · by_cases hbid : b.id = id
      · simp only [if_neg haid, if_pos hbid]
        exact fun hh => hguard a ha haid ⟨hh.1, hh.2⟩
      · simp only [if_neg haid, if_neg hbid]
        exact hpair

/-- A successful `partnersAdd` preserves the (name, type) uniqueness
invariant. -/
theorem partnersAdd_preserves (s : Store) (p : Partner)
    (hnt : distinctNameType s) :
    ∀ s', partnersAdd s p = .ok s' → distinctNameType s' := by
  intro s' h
  unfold partnersAdd at h
  by_cases hc : (s.partners.any
      (fun q => q.name == p.name && q.type == p.type)) = true
  · rw [if_pos hc] at h
    cases h
  · rw [if_neg hc] at h
    injection h with h'
    subst h'
    show (s.partners ++ [p]).Pairwise _
    rw [List.pairwise_append]
    refine ⟨hnt, List.pairwise_singleton _ _, ?_⟩
    intro a ha b hb
    have hb' : b = p := by simpa using hb
    subst hb'
    intro hpair
    apply hc
    rw [List.any_eq_true]
    exact ⟨a, ha, by simp [hpair.1, hpair.2]⟩

/-- Claim C8 (amended): `updatePartner` re-runs the application-level
uniqueness check, failing with DuplicatePartner, only when the patch
carries a non-empty name different from the stored one; a type-only change
bypasses that check, but the store's unique `[name+type]` index still
rejects any write that would create a duplicate, so every partner
operation (update, create, delete) preserves the invariant that the
(name, type) pair is unique across all partners. -/
theorem c8_uniqueness (now id : Nat) (u : PartnerPatch) (s : Store) :
    (∀ partner n, s.getPartner id = some partner → u.name = some n →
      n ≠ "" → n ≠ partner.name →
      partnerExists s n (u.type.getD partner.type) (some id) = true →
      updatePartner now id u s = (.error .duplicatePartner, s)) ∧
    (distinctPartnerIds s → distinctNameType s →
      distinctNameType (updatePartner now id u s).2) ∧
    (∀ d, distinctNameType s → distinctNameType (createPartner now d s).2) ∧
    (∀ pid, distinctNameType s → distinctNameType (deletePartner pid s).2) := by
  refine ⟨?_, ?_, ?_, ?_⟩
  · intro partner n h1 h2 h3 h4 h5
    simp [updatePartner, h1, h2, h3, h4, h5]
  · intro hids hnt
    unfold updatePartner
    dsimp only
    repeat' split
    all_goals first
      | exact hnt
      | (rename_i s' hpu
         exact partnersUpdate_preserves s id _ hids hnt s' hpu)
  · intro d hnt
    unfold createPartner
    split
    · exact hnt
    · split
      · exact hnt
      · cases hpa : partnersAdd s
            { id := s.nextPartnerId, name := d.name, type := d.type,
              createdAt := now, updatedAt := none } with
        | error e =>
          simp only [hpa]
          exact hnt
        | ok s' =>
          simp only [hpa]
          exact partnersAdd_preserves s _ hnt s' hpa
  · intro pid hnt
    simp only [deletePartner]
    split
    · exact hnt
    · split
      · exact hnt
      · exact hnt.sublist (List.filter_sublist _)

/-- Partner "Bob" of type SUPPLIER with id 2. -/
def bobSupplier : Partner :=
  { id := 2, name := "Bob", type := .SUPPLIER, createdAt := 0, updatedAt := none }

/-- Store for the C8 witness: CLIENT "Acme" (id 1) and SUPPLIER "Bob"
(id 2). -/
def storeC8W : Store :=
  { emptyStore with partners := [acmeClient, bobSupplier], nextPartnerId := 3 }

/-- Patch renaming partner 2 to "Acme" and retyping it CLIENT — a
name-change collision. -/
def patchC8a : PartnerPatch := { name := some "Acme", type := some .CLIENT }

/-- Type-only patch retyping partner 2 to BOTH — no collision. -/
def patchC8b : PartnerPatch := { name := none, type := some .BOTH }

/-- Witness for C8 (amended): the renaming collision fails with
DuplicatePartner, and a harmless type-only update preserves the
uniqueness invariant. -/
theorem c8_uniqueness_witness :
    updatePartner 9 2 patchC8a storeC8W = (.error .duplicatePartner, storeC8W) ∧
    distinctNameType (updatePartner 9 2 patchC8b storeC8W).2 :=
  ⟨(c8_uniqueness 9 2 patchC8a storeC8W).1 bobSupplier "Acme" rfl rfl
      (by decide) (by decide) rfl,
   (c8_uniqueness 9 2 patchC8b storeC8W).2.1
      (by unfold distinctPartnerIds; decide)
      (by unfold distinctNameType; decide)⟩

-- ==================== C9 ====================================================

/-- Claim C9: every Ledger Operation is atomic with respect to the store —
whenever an operation returns an error, the store it returns is exactly the
store it was given (every validation and reference lookup happens before the
single write; no error branch follows a write). -/
theorem c9_atomicity (op : LedgerOp) (s : Store) (e : LedgerError)
    (h : (runLedgerOp op s).1 = .error e) : (runLedgerOp op s).2 = s := by
  revert h
  cases op <;>
    simp only [runLedgerOp, createPartner, updatePartner, deletePartner,
      createTransaction, updateTransaction, deleteTransaction, createPayment,
      updatePayment, deletePayment, partnersAdd, partnersUpdate,
      paymentInsert] <;>
    (repeat' first | split | dsimp only [Except.map]) <;>
    intro h <;>
    first | rfl | (exact absurd h (by simp))

/-- A failing operation for the C9 witness: a payment of amount 0. -/
def opC9 : LedgerOp :=
  .newPayment 0 { partnerId := 1, transactionId := none, date := 0, amount := 0 }

/-- Witness for C9: the rejected zero-amount payment leaves the empty store
unchanged. -/
theorem c9_atomicity_witness : (runLedgerOp opC9 emptyStore).2 = emptyStore :=
  c9_atomicity opC9 emptyStore .invalidAmount rfl

-- ==================== C10 ===================================================

/-- Claim C10: `updatePayment` fails only when the payment id does not
resolve or the patch carries an `amount ≤ 0`; any other patch — including
one retargeting `partnerId` or `transactionId` at records that do not exist
or belong to someone else — is accepted and the merge is persisted: no
referential-integrity, partner-match or edit-window check runs on payment
updates. -/
theorem c10_updatePayment (id : Nat) (u : PaymentPatch) (s : Store) :
    (s.getPayment id = none →
      updatePayment id u s = (.error .paymentNotFound, s)) ∧
    (∀ p a, s.getPayment id = some p → u.amount = some a → a ≤ 0 →
      updatePayment id u s = (.error .invalidAmount, s)) ∧
    (∀ p, s.getPayment id = some p → (∀ a, u.amount = some a → 0 < a) →
      updatePayment id u s = (.ok (), paymentWrite s id u)) := by
  have hamt : ∀ _ : (∀ a, u.amount = some a → 0 < a),
      (match u.amount with | some a => decide (a ≤ 0) | none => false) = false := by
    intro h
    cases hu : u.amount with
    | none => rfl
    | some a => simpa using not_le.mpr (h a hu)
  refine ⟨fun h => ?_, fun p a h1 h2 h3 => ?_, fun p h1 h2 => ?_⟩
  · simp [updatePayment, h]
  · simp [updatePayment, h1, h2, h3]
  · simp [updatePayment, h1, hamt h2]

/-- A stored payment for the C10 witness. -/
def payC10 : Payment :=
  { id := 1, partnerId := 1, transactionId := none, date := 0, amount := 5,
    createdAt := 0 }

/-- Store for the C10 witness. -/
def storeC10 : Store :=
  { emptyStore with payments := [payC10], nextPaymentId := 2 }

/-- A patch retargeting the payment at partner 99 and transaction 77,
neither of which exists. -/
def patchC10 : PaymentPatch :=
  { partnerId := some 99, transactionId := some (some 77), date := none,
    amount := none }

/-- Witness for C10: the dangling retargeting patch is accepted and
persisted even though partner 99 and transaction 77 do not exist. -/
theorem c10_updatePayment_witness :
    storeC10.getPartner 99 = none ∧ storeC10.getTransaction 77 = none ∧
    updatePayment 1 patchC10 storeC10 = (.ok (), paymentWrite storeC10 1 patchC10) :=
  ⟨rfl, rfl,
   (c10_updatePayment 1 patchC10 storeC10).2.2 payC10 rfl
     (fun a ha => by cases ha)⟩

end Boutique
